import Mathlib

/-!
Shallow embedding of the music recommender core (src/app.js, class
MusicRecommender).  JS numbers are modelled as ℚ where arithmetic matters
(ratings, scores) and as ℤ/ℕ for counts and indices; JS objects used as
maps are modelled as association lists; the unseeded `Math.random()` draws
are modelled by explicit oracle parameters (a stream of naturals for index
draws, a stream of rationals for the per-candidate score perturbation, and
a shuffle oracle for the cold-start `sort(() => Math.random() - 0.5)`).
The possibly unbounded recursion of `getInitialBands` is modelled with
explicit fuel: `none` means the recursion has not returned within the
given number of calls.
-/

attribute [local semireducible] Rat.add Rat.mul Rat.inv Rat.sub Rat.ofScientific

/-- The mathematical ceiling of a rational, modelling `Math.ceil`
(`ratCeil_eq_ceil` below checks it against the ceiling of Mathlib). -/
def ratCeil (q : ℚ) : Int := -((-q.num).ediv (q.den : Int))

/-- An entity of the catalog (`artists.json` entries and user-added artists). -/
structure Artist where
  id : Nat
  name : String
  genres : List String
  themes : List String
  styles : List String
  year : Nat
  era : String
deriving DecidableEq, Repr

/-- A rating entry, as stored by `rateArtist`. -/
structure Rating where
  rating : ℚ
  timestamp : Nat
deriving DecidableEq, Repr

/-- A saved-for-later entry, as stored by `addToListenList`. -/
structure ToListenItem where
  id : Nat
  name : String
  genres : List String
  timestamp : Nat
deriving DecidableEq, Repr

/-- An artist together with the score attached by the spread
`{...artist, score}` in `generateRecommendations`. -/
structure Scored where
  artist : Artist
  score : ℚ
deriving DecidableEq, Repr

/-- The mutable fields of the `MusicRecommender` instance that the engine
reads or writes (DOM and localStorage plumbing is outside the core). -/
structure AppState where
  artists : List Artist
  userRatings : List (Nat × Rating)
  toListenList : List ToListenItem
  currentRecommendations : List Artist
  recentlyShown : List Nat
  recommendationCount : Int
deriving DecidableEq, Repr

/-- JS `Array.prototype.slice` index resolution: a negative index counts
from the end, a nonnegative one is clamped to the length. -/
def jsStartIdx (len : Nat) (i : Int) : Nat :=
  if i < 0 then (len + i).toNat else min i.toNat len

/-- `l.slice(0, i)` for a JS array. -/
def jsSliceTo (l : List α) (i : Int) : List α :=
  l.take (jsStartIdx l.length i)

/-- `l.slice(i)` for a JS array. -/
def jsSliceFrom (l : List α) (i : Int) : List α :=
  l.drop (jsStartIdx l.length i)

/-- Lookup in a JS object used as a tag → weight map
(`preferences.genres[g] || 0`). -/
def lookupTag (m : List (String × ℚ)) (k : String) : ℚ :=
  ((m.find? (fun p => p.1 == k)).map Prod.snd).getD 0

/-- `m[k] = (m[k] || 0) + w` on a JS object used as a map. -/
def bumpTag (m : List (String × ℚ)) (k : String) (w : ℚ) : List (String × ℚ) :=
  if m.any (fun p => p.1 == k) then
    m.map (fun p => if p.1 == k then (p.1, p.2 + w) else p)
  else
    m ++ [(k, w)]

/-- The `preferences` object built by `getUserPreferences`. -/
structure Preferences where
  genres : List (String × ℚ)
  themes : List (String × ℚ)
  styles : List (String × ℚ)
  eras : List (String × ℚ)
  averageRating : ℚ
deriving DecidableEq, Repr

/-- One step of the `Object.entries(this.userRatings).forEach` loop of
`getUserPreferences`; the accumulator carries the four tag maps together
with `totalRating` and `ratingCount`. -/
def prefStep (artists : List Artist) (acc : Preferences × ℚ × Nat)
    (entry : Nat × Rating) : Preferences × ℚ × Nat :=
  match artists.find? (fun a => a.id == entry.1) with
  | none => acc
  | some artist =>
    let w := entry.2.rating
    let p := acc.1
    let p := { p with genres := artist.genres.foldl (fun m g => bumpTag m g w) p.genres }
    let p := { p with themes := artist.themes.foldl (fun m t => bumpTag m t w) p.themes }
    let p := { p with styles := artist.styles.foldl (fun m s => bumpTag m s w) p.styles }
    let p := { p with eras := bumpTag p.eras artist.era w }
    (p, acc.2.1 + entry.2.rating, acc.2.2 + 1)

/-- `getUserPreferences` (src/app.js:180-223). -/
def getUserPreferences (artists : List Artist) (userRatings : List (Nat × Rating)) :
    Preferences :=
  let res := userRatings.foldl (prefStep artists) (⟨[], [], [], [], 0⟩, 0, 0)
  { res.1 with
    averageRating := if res.2.2 > 0 then res.2.1 / (res.2.2 : ℚ) else 0 }

/-- `calculateArtistScore` (src/app.js:225-250); `rand` stands for the
fresh `Math.random() * 10` draw of that call. -/
def calculateArtistScore (artist : Artist) (p : Preferences) (rand : ℚ) : ℚ :=
  let s : ℚ := artist.genres.foldl (fun s g => s + lookupTag p.genres g * 3) 0
  let s := artist.themes.foldl (fun s t => s + lookupTag p.themes t * 2) s
  let s := artist.styles.foldl (fun s st => s + lookupTag p.styles st * 2) s
  let s := s + lookupTag p.eras artist.era * 1
  s + rand

/-- `!this.userRatings[artist.id]` presence test. -/
def isRated (userRatings : List (Nat × Rating)) (id : Nat) : Bool :=
  (userRatings.lookup id).isSome

/-- `this.toListenList.some(item => item.id === artist.id)`. -/
def inToListen (toListenList : List ToListenItem) (id : Nat) : Bool :=
  toListenList.any (fun item => item.id == id)

/-- The `freshArtists` filter of `selectRecommendations`. -/
def freshPool (recentlyShown : List Nat) (scored : List Scored) : List Scored :=
  scored.filter (fun a => !(recentlyShown.contains a.artist.id))

/-- The `availableArtists` pool of `selectRecommendations`: the fresh pool
when it is large enough, otherwise the whole scored list. -/
def availablePool (recentlyShown : List Nat) (count : Int) (scored : List Scored) :
    List Scored :=
  let fresh := freshPool recentlyShown scored
  if (fresh.length : Int) ≥ count then fresh else scored

/-- The `for (let i = 0; i < randomCount && remaining.length > 0; i++)`
loop of `selectRecommendations`: draw an index, `splice` the element out,
repeat.  `rands i` models the i-th `Math.random()` draw, reduced modulo
the current pool size (`Math.floor(Math.random() * remaining.length)`
always lands in range). -/
def drawRandom (rands : Nat → Nat) : Nat → Nat → List Scored → List Scored
  | _, 0, _ => []
  | i, k + 1, rem =>
    if rem.length = 0 then []
    else
      match rem.get? (rands i % rem.length) with
      | some a => a :: drawRandom rands (i + 1) k (rem.eraseIdx (rands i % rem.length))
      | none => []

/-- The `recommendations.forEach` push-if-absent loop that appends the
selected identifiers to `recentlyShown`. -/
def pushIds (rs : List Nat) (recs : List Scored) : List Nat :=
  recs.foldl (fun rs a => if rs.contains a.artist.id then rs else rs ++ [a.artist.id]) rs

/-- `if (list.length > cap) list = list.slice(-cap)`. -/
def trimLast (cap : Nat) (l : List Nat) : List Nat :=
  if l.length > cap then l.drop (l.length - cap) else l

/-- `selectRecommendations` (src/app.js:252-291).  `N` is the value of
`this.recommendationCount`; the result pairs the returned recommendation
list with the updated `recentlyShown` window. -/
def selectRecommendations (N : Int) (recentlyShown : List Nat) (rands : Nat → Nat)
    (scoredArtists : List Scored) : List Scored × List Nat :=
  let count : Int := min N (scoredArtists.length : Int)
  let avail := availablePool recentlyShown count scoredArtists
  let topCount : Int := ratCeil ((count : ℚ) * (7 / 10))
  let randomCount : Int := count - topCount
  let recommendations :=
    jsSliceTo avail topCount ++ drawRandom rands 0 randomCount.toNat (jsSliceFrom avail topCount)
  (recommendations, trimLast 24 (pushIds recentlyShown recommendations))

/-- `selectRecommendations` acting on the whole session state: the only
field it assigns is `recentlyShown`. -/
def selectRecommendationsSt (st : AppState) (rands : Nat → Nat)
    (scoredArtists : List Scored) : List Scored × AppState :=
  let r := selectRecommendations st.recommendationCount st.recentlyShown rands scoredArtists
  (r.1, { st with recentlyShown := r.2 })

/-- The hard-coded `popularBandIds` list of `getInitialBandsPool`
(src/app.js:346-418). -/
def popularBandIds : List Nat :=
  [1, 2, 3, 11, 18, 21, 44, 43, 47, 9, 56,
   26, 33, 82,
   13, 31, 20, 27, 71, 98,
   8, 7, 22, 42, 65, 79, 88, 38, 48, 77, 107,
   6, 5, 52, 53, 78,
   12, 16, 25, 15, 19,
   39, 49, 93,
   10, 23, 54, 50, 70,
   14, 34, 28, 60, 45]

/-- `getInitialBandsPool` (src/app.js:345-423): ids mapped through
`artists.find` with the undefined results filtered out. -/
def getInitialBandsPool (artists : List Artist) : List Artist :=
  popularBandIds.filterMap (fun id => artists.find? (fun a => a.id == id))

/-- The `availableBands` filter of `getInitialBands`: the cold-start
eligible-candidate set. -/
def coldEligible (st : AppState) : List Artist :=
  (getInitialBandsPool st.artists).filter (fun a =>
    !(isRated st.userRatings a.id) && !(inToListen st.toListenList a.id)
      && !(st.recentlyShown.contains a.id))

/-- `getInitialBands` (src/app.js:147-178), with fuel bounding the
unbounded self-recursion; `shuffle` models the random shuffle
`[...availableBands].sort(() => Math.random() - 0.5)`.  Returns the
selected bands and the updated `recentlyShown` window, or `none` when the
recursion has not returned within `fuel` calls. -/
def getInitialBands (shuffle : List Artist → List Artist) :
    Nat → AppState → Option (List Artist × List Nat)
  | 0, _ => none
  | fuel + 1, st =>
    let availableBands := coldEligible st
    if (availableBands.length : Int) < st.recommendationCount then
      getInitialBands shuffle fuel { st with recentlyShown := [] }
    else
      let shuffled := shuffle availableBands
      let selected := jsSliceTo shuffled st.recommendationCount
      let rs := st.recentlyShown ++ selected.map (fun a => a.id)
      some (selected, trimLast 18 rs)

/-- The `unratedArtists` filter of `generateRecommendations`: the
eligible-candidate set of the preference-scored path. -/
def eligibleCandidates (st : AppState) : List Artist :=
  st.artists.filter (fun a =>
    !(isRated st.userRatings a.id) && !(inToListen st.toListenList a.id))

/-- Insertion into a list sorted descending by score. -/
def insertDesc (a : Scored) : List Scored → List Scored
  | [] => [a]
  | b :: l => if b.score ≥ a.score then b :: insertDesc a l else a :: b :: l

/-- `scoredArtists.sort((a, b) => b.score - a.score)`: a descending sort
producing a permutation of its input. -/
def sortDesc : List Scored → List Scored
  | [] => []
  | a :: l => insertDesc a (sortDesc l)

/-- `generateRecommendations` (src/app.js:100-144), restricted to the core
(DOM assignments dropped).  `scoreRand i` is the `Math.random() * 10` draw
used to score the i-th unrated artist.  Returns the new
`currentRecommendations` and the new state, or `none` when the cold-start
recursion does not return within `fuel` calls. -/
def generateRecommendations (shuffle : List Artist → List Artist)
    (rands : Nat → Nat) (scoreRand : Nat → ℚ) (fuel : Nat) (st : AppState) :
    Option (List Artist × AppState) :=
  if st.userRatings.isEmpty then
    match getInitialBands shuffle fuel st with
    | none => none
    | some (sel, rs) =>
      some (sel, { st with currentRecommendations := sel, recentlyShown := rs })
  else
    let preferences := getUserPreferences st.artists st.userRatings
    let scoredArtists := (eligibleCandidates st).enum.map
      (fun p => Scored.mk p.2 (calculateArtistScore p.2 preferences (scoreRand p.1)))
    let sorted := sortDesc scoredArtists
    let r := selectRecommendations st.recommendationCount st.recentlyShown rands sorted
    some (r.1.map (fun s => s.artist),
      { st with currentRecommendations := r.1.map (fun s => s.artist),
                recentlyShown := r.2 })

/-- `removeRecommendation` (src/app.js:297-342).  `rands 0` models the
replacement index draw and `scoreRand` the per-candidate score draws. -/
def removeRecommendation (rands : Nat → Nat) (scoreRand : Nat → ℚ)
    (st : AppState) (artistId : Nat) : AppState :=
  let current := st.currentRecommendations.filter (fun a => a.id != artistId)
  if st.userRatings.isEmpty then
    let availableBands := (getInitialBandsPool st.artists).filter (fun a =>
      !(current.any (fun rec => rec.id == a.id)) && !(inToListen st.toListenList a.id))
    if availableBands.length > 0 then
      match availableBands.get? (rands 0 % availableBands.length) with
      | some a => { st with currentRecommendations := current ++ [a] }
      | none => { st with currentRecommendations := current }
    else
      { st with currentRecommendations := current }
  else
    let preferences := getUserPreferences st.artists st.userRatings
    let unratedArtists := st.artists.filter (fun a =>
      !(isRated st.userRatings a.id) && !(inToListen st.toListenList a.id)
        && !(current.any (fun rec => rec.id == a.id)))
    if unratedArtists.length > 0 then
      let scoredArtists := unratedArtists.enum.map
        (fun p => Scored.mk p.2 (calculateArtistScore p.2 preferences (scoreRand p.1)))
      let sorted := sortDesc scoredArtists
      match sorted.get? (rands 0 % min 10 sorted.length) with
      | some a => { st with currentRecommendations := current ++ [a.artist] }
      | none => { st with currentRecommendations := current }
    else
      { st with currentRecommendations := current }

/-- `removeFromListenList` (src/app.js:445-449). -/
def removeFromListenList (st : AppState) (artistId : Nat) : AppState :=
  { st with toListenList := st.toListenList.filter (fun item => item.id != artistId) }

/-! ### Concrete fixtures used by witnesses and counterexamples -/

/-- The mean over all rating entries regardless of catalog membership, as
the spec words it ("sum of rating values / count of ratings ... computed
over all rating entries regardless of catalog membership"); written from
the spec for comparison against `getUserPreferences`. -/
def specMeanAllEntries (ratings : List (Nat × Rating)) : ℚ :=
  if ratings.length = 0 then 0
  else ((ratings.map (fun e => e.2.rating)).sum) / (ratings.length : ℚ)

/-- Sum of the profile weights of a list of tags. -/
def tagTotal (m : List (String × ℚ)) (tags : List String) : ℚ :=
  (tags.map (lookupTag m)).sum

def artistA : Artist := ⟨1, "A", ["rock"], [], [], 1970, "1970s"⟩

def artistB : Artist := ⟨2, "B", ["pop"], [], [], 1970, "1970s"⟩

def artistC : Artist := ⟨3, "C", ["rock"], [], [], 1970, "1970s"⟩

/-- The profile of the worked example of the spec: ratings A ↦ 5, B ↦ 3. -/
def exPrefs : Preferences :=
  getUserPreferences [artistA, artistB, artistC] [(1, ⟨5, 0⟩), (2, ⟨3, 0⟩)]

def scoredA : Scored := ⟨artistA, 2⟩

def scoredB : Scored := ⟨artistB, 1⟩

def beatles : Artist := ⟨1, "The Beatles", ["rock"], [], [], 1960, "1960s"⟩

/-- A session with one catalog entry, nothing rated, nothing displayed. -/
def stOneBand : AppState := ⟨[beatles], [], [], [], [], 6⟩

/-- The session right after a failed catalog load: empty catalog. -/
def stEmptyCatalog : AppState := ⟨[], [], [], [], [], 6⟩

def mkBand (id : Nat) (name : String) : Artist := ⟨id, name, [], [], [], 1970, "1970s"⟩

/-- A catalog holding exactly six entities of the cold-start pool. -/
def stSix : AppState :=
  ⟨[mkBand 1 "b1", mkBand 2 "b2", mkBand 3 "b3", mkBand 11 "b4", mkBand 18 "b5",
    mkBand 21 "b6"], [], [], [], [], 6⟩

/-- The cold-start result on `stSix` with the identity shuffle. -/
def resSix : List Artist × List Nat :=
  ([mkBand 1 "b1", mkBand 2 "b2", mkBand 3 "b3", mkBand 11 "b4", mkBand 18 "b5",
    mkBand 21 "b6"], [1, 2, 3, 11, 18, 21])

def pixies : Artist := ⟨42, "Pixies", ["alternative"], [], [], 1986, "1980s"⟩

/-- A session where Pixies is rated and id 7 is saved for later. -/
def stMixed : AppState :=
  ⟨[beatles, pixies], [(42, ⟨4, 0⟩)], [⟨7, "Radiohead", [], 0⟩], [], [], 6⟩

/-- Ten scored candidates sharing one identifier, scores 10, 9, ..., 1. -/
def dupPool : List Scored :=
  (List.range 10).map (fun i => ⟨⟨1, "X", [], [], [], 1970, "1970s"⟩, (10 - i : ℚ)⟩)

/-- Ten scored candidates with distinct identifiers 1..10 and scores 10, ..., 1. -/
def tenPool : List Scored :=
  (List.range 10).map (fun i => ⟨⟨i + 1, "X", [], [], [], 1970, "1970s"⟩, (10 - i : ℚ)⟩)

/-! ### Helper lemmas -/

theorem ratCeil_eq_ceil (q : ℚ) : ratCeil q = Int.ceil q := by
  have h1 : Int.ceil q = -Int.floor (-q) := by rw [← Int.ceil_neg, neg_neg]
  rw [h1, ratCeil, Rat.floor_def]
  congr 1

theorem get?_cons_eraseIdx_perm :
    ∀ (l : List Scored) (i : Nat) (a : Scored), l.get? i = some a →
      List.Perm (a :: l.eraseIdx i) l
  | [], i, a => by simp
  | b :: l, 0, a => by
    intro h
    injection h with h
    subst h
    exact List.Perm.refl _
  | b :: l, i + 1, a => by
    intro h
    exact (List.Perm.swap b a (l.eraseIdx i)).trans
      ((get?_cons_eraseIdx_perm l i a h).cons b)

theorem drawRandom_subperm (rands : Nat → Nat) :
    ∀ (k i : Nat) (rem : List Scored), List.Subperm (drawRandom rands i k rem) rem
  | 0, i, rem => by
    simp [drawRandom]
  | k + 1, i, rem => by
    rw [drawRandom]
    split
    · exact List.nil_subperm
    · rename_i hlen
      have hidx : rands i % rem.length < rem.length :=
        Nat.mod_lt _ (Nat.pos_of_ne_zero hlen)
      cases hget : rem.get? (rands i % rem.length) with
      | none =>
        exact absurd (List.get?_eq_none.mp hget) (by omega)
      | some a =>
        have h1 := drawRandom_subperm rands k (i + 1) (rem.eraseIdx (rands i % rem.length))
        have h2 := get?_cons_eraseIdx_perm rem (rands i % rem.length) a hget
        exact ((List.subperm_cons a).mpr h1).trans h2.subperm

theorem drawRandom_length (rands : Nat → Nat) :
    ∀ (k i : Nat) (rem : List Scored),
      (drawRandom rands i k rem).length = min k rem.length
  | 0, i, rem => by simp [drawRandom]
  | k + 1, i, rem => by
    rw [drawRandom]
    split
    · rename_i hlen
      simp [hlen]
    · rename_i hlen
      have hidx : rands i % rem.length < rem.length :=
        Nat.mod_lt _ (Nat.pos_of_ne_zero hlen)
      cases hget : rem.get? (rands i % rem.length) with
      | none =>
        exact absurd (List.get?_eq_none.mp hget) (by omega)
      | some a =>
        have ih := drawRandom_length rands k (i + 1) (rem.eraseIdx (rands i % rem.length))
        have herase : (rem.eraseIdx (rands i % rem.length)).length = rem.length - 1 := by
          rw [List.length_eraseIdx]
          simp [hidx]
        simp only [List.length_cons, ih, herase]
        omega

theorem trimLast_length_le (cap : Nat) (l : List Nat) : (trimLast cap l).length ≤ cap := by
  unfold trimLast
  split
  · rename_i h
    simp only [List.length_drop]
    omega
  · rename_i h
    omega

theorem trimLast_suffix (cap : Nat) (l : List Nat) : (trimLast cap l) <:+ l := by
  unfold trimLast
  split
  · exact List.drop_suffix _ _
  · exact List.suffix_rfl

theorem isRated_eq_false_iff (ratings : List (Nat × Rating)) (id : Nat) :
    isRated ratings id = false ↔ id ∉ ratings.map Prod.fst := by
  induction ratings with
  | nil => simp [isRated]
  | cons e rest ih =>
    simp only [isRated, List.lookup, List.map_cons, List.mem_cons] at *
    by_cases h : id = e.1
    · simp [h, beq_iff_eq]
    · have hne : (id == e.1) = false := by simp [h]
      simp [hne, ih, h]

theorem inToListen_eq_false_iff (l : List ToListenItem) (id : Nat) :
    inToListen l id = false ↔ id ∉ l.map ToListenItem.id := by
  simp only [inToListen, List.mem_map]
  rw [← Bool.not_eq_true, List.any_eq_true]
  simp only [beq_iff_eq]

theorem foldl_score_component (m : List (String × ℚ)) (c : ℚ) :
    ∀ (l : List String) (s0 : ℚ),
      l.foldl (fun s g => s + lookupTag m g * c) s0 = s0 + c * ((l.map (lookupTag m)).sum)
  | [], s0 => by simp
  | g :: rest, s0 => by
    rw [List.foldl_cons, foldl_score_component m c rest]
    simp only [List.map_cons, List.sum_cons]
    ring

theorem prefFold_snd (artists : List Artist) :
    ∀ (ratings : List (Nat × Rating)) (p : Preferences) (t : ℚ) (c : Nat),
      (ratings.foldl (prefStep artists) (p, t, c)).2 =
        (t + ((ratings.filter (fun e => (artists.find? (fun a => a.id == e.1)).isSome)).map
              (fun e => e.2.rating)).sum,
         c + (ratings.filter (fun e => (artists.find? (fun a => a.id == e.1)).isSome)).length)
  | [], p, t, c => by simp
  | e :: rest, p, t, c => by
    rw [List.foldl_cons]
    cases hfind : artists.find? (fun a => a.id == e.1) with
    | none =>
      have hstep : prefStep artists (p, t, c) e = (p, t, c) := by
        simp [prefStep, hfind]
      rw [hstep, prefFold_snd artists rest p t c]
      simp [List.filter_cons, hfind]
    | some art =>
      have hstep : prefStep artists (p, t, c) e =
          ((prefStep artists (p, t, c) e).1, t + e.2.rating, c + 1) := by
        simp only [prefStep, hfind]
      set p2 := (prefStep artists (p, t, c) e).1 with hp2
      rw [hstep, prefFold_snd artists rest p2 (t + e.2.rating) (c + 1)]
      have hcons : (e :: rest).filter (fun e => (artists.find? (fun a => a.id == e.1)).isSome)
          = e :: rest.filter (fun e => (artists.find? (fun a => a.id == e.1)).isSome) := by
        simp [List.filter_cons, hfind]
      rw [hcons]
      simp only [List.map_cons, List.sum_cons, List.length_cons, Prod.mk.injEq]
      constructor
      · ring
      · omega

theorem availablePool_eq (rs : List Nat) (count : Int) (scored : List Scored) :
    availablePool rs count scored =
      if ((freshPool rs scored).length : Int) ≥ count then freshPool rs scored
      else scored := rfl

theorem availablePool_count_le (rs : List Nat) (count : Int) (scored : List Scored)
    (a : Scored) : (availablePool rs count scored).count a ≤ scored.count a := by
  rw [availablePool_eq]
  split
  · exact (List.filter_sublist _).count_le a
  · exact le_refl _

theorem availablePool_ids_nodup (rs : List Nat) (count : Int) (scored : List Scored)
    (h : (scored.map (fun s => s.artist.id)).Nodup) :
    ((availablePool rs count scored).map (fun s => s.artist.id)).Nodup := by
  rw [availablePool_eq]
  split
  · exact h.sublist ((List.filter_sublist _).map _)
  · exact h

theorem selectRecommendations_fst_eq (N : Int) (rs : List Nat) (rands : Nat → Nat)
    (scored : List Scored) :
    (selectRecommendations N rs rands scored).1 =
      jsSliceTo (availablePool rs (min N (scored.length : Int)) scored)
          (ratCeil (((min N (scored.length : Int) : Int) : ℚ) * (7 / 10)))
        ++ drawRandom rands 0
          ((min N (scored.length : Int)
            - ratCeil (((min N (scored.length : Int) : Int) : ℚ) * (7 / 10))).toNat)
          (jsSliceFrom (availablePool rs (min N (scored.length : Int)) scored)
            (ratCeil (((min N (scored.length : Int) : Int) : ℚ) * (7 / 10)))) := rfl

theorem selectRecommendations_snd_eq (N : Int) (rs : List Nat) (rands : Nat → Nat)
    (scored : List Scored) :
    (selectRecommendations N rs rands scored).2 =
      trimLast 24 (pushIds rs (selectRecommendations N rs rands scored).1) := rfl

theorem selectRecommendations_count_le (N : Int) (rs : List Nat) (rands : Nat → Nat)
    (scored : List Scored) (a : Scored) :
    ((selectRecommendations N rs rands scored).1).count a ≤ scored.count a := by
  rw [selectRecommendations_fst_eq, List.count_append]
  have h2 := (drawRandom_subperm rands
    ((min N (scored.length : Int)
      - ratCeil (((min N (scored.length : Int) : Int) : ℚ) * (7 / 10))).toNat) 0
    (jsSliceFrom (availablePool rs (min N (scored.length : Int)) scored)
      (ratCeil (((min N (scored.length : Int) : Int) : ℚ) * (7 / 10))))).count_le a
  have h3 : (jsSliceTo (availablePool rs (min N (scored.length : Int)) scored)
        (ratCeil (((min N (scored.length : Int) : Int) : ℚ) * (7 / 10)))).count a
      + (jsSliceFrom (availablePool rs (min N (scored.length : Int)) scored)
        (ratCeil (((min N (scored.length : Int) : Int) : ℚ) * (7 / 10)))).count a
      = (availablePool rs (min N (scored.length : Int)) scored).count a := by
    rw [jsSliceTo, jsSliceFrom, ← List.count_append, List.take_append_drop]
  have h4 := availablePool_count_le rs (min N (scored.length : Int)) scored a
  omega

/-! ### Claim theorems -/

/-- Claim C10: every entity returned by selectRecommendations is an
element of the input scored list, taken at most once (multiset
containment expressed by counts), and the only session field the
operation assigns is the recently-shown window: rating history, saved
set, catalog, displayed list and requested count are unchanged. -/
theorem selectRecommendations_frame (st : AppState) (rands : Nat → Nat)
    (scored : List Scored) (a : Scored) :
    ((selectRecommendationsSt st rands scored).1.count a ≤ scored.count a)
    ∧ (selectRecommendationsSt st rands scored).2.userRatings = st.userRatings
    ∧ (selectRecommendationsSt st rands scored).2.toListenList = st.toListenList
    ∧ (selectRecommendationsSt st rands scored).2.artists = st.artists
    ∧ (selectRecommendationsSt st rands scored).2.currentRecommendations
        = st.currentRecommendations
    ∧ (selectRecommendationsSt st rands scored).2.recommendationCount
        = st.recommendationCount := by
  refine ⟨?_, rfl, rfl, rfl, rfl, rfl⟩
  exact selectRecommendations_count_le st.recommendationCount st.recentlyShown rands scored a

/-- Claim C5, counterexample: the requested count -2 is ≤ 0, yet over a
two-candidate pool the selection step returns one recommendation, not an
empty list (JS `slice(0, -1)` keeps the first element). -/
theorem selectRecommendations_neg_count_not_empty :
    (-2 : Int) ≤ 0
    ∧ ((selectRecommendations (-2) [] (fun _ => 0) [scoredA, scoredB]).1).length = 1 := by
  exact ⟨by decide, by decide⟩

/-- Claim C5, amended: for every scored candidate list, the selection
step with requested count N = 0 returns an empty list. -/
theorem selectRecommendations_zero_count_empty (rs : List Nat) (rands : Nat → Nat)
    (scored : List Scored) :
    (selectRecommendations 0 rs rands scored).1 = [] := by
  rw [selectRecommendations_fst_eq]
  have hmin : min (0 : Int) (scored.length : Int) = 0 :=
    min_eq_left (Int.natCast_nonneg _)
  rw [hmin]
  have hceil : ratCeil (((0 : Int) : ℚ) * (7 / 10)) = 0 := by
    norm_num
    decide
  rw [hceil]
  have h1 : jsSliceTo (availablePool rs 0 scored) 0 = [] := by
    simp [jsSliceTo, jsStartIdx]
  rw [h1]
  simp [drawRandom]

/-- Claim C1, counterexample: with an empty catalog and the single rating
999 ↦ 5, the claimed mean over all rating entries is 5, but the profile
built by getUserPreferences has mean 0 — entries whose identifier is not
found in the catalog are skipped before `totalRating`/`ratingCount` are
updated. -/
theorem averageRating_skips_unknown_ids :
    (getUserPreferences [] [(999, ⟨5, 0⟩)]).averageRating = 0
    ∧ specMeanAllEntries [(999, ⟨5, 0⟩)] = 5
    ∧ (getUserPreferences [] [(999, ⟨5, 0⟩)]).averageRating
        ≠ specMeanAllEntries [(999, ⟨5, 0⟩)] := by
  refine ⟨rfl, by decide, by decide⟩

/-- Claim C1, amended: the mean rating of the profile produced by
getUserPreferences equals the sum of the rating values of the entries
whose identifier is found in the catalog, divided by the number of such
entries, and 0 when there is no such entry (in particular an empty
history yields mean 0). -/
theorem getUserPreferences_averageRating_eq (artists : List Artist)
    (ratings : List (Nat × Rating)) :
    (getUserPreferences artists ratings).averageRating =
      if (ratings.filter (fun e => (artists.find? (fun a => a.id == e.1)).isSome)).length = 0
      then 0
      else ((ratings.filter (fun e =>
              (artists.find? (fun a => a.id == e.1)).isSome)).map
            (fun e => e.2.rating)).sum
        / ((ratings.filter (fun e =>
              (artists.find? (fun a => a.id == e.1)).isSome)).length : ℚ) := by
  have h := prefFold_snd artists ratings ⟨[], [], [], [], 0⟩ 0 0
  have havg : (getUserPreferences artists ratings).averageRating =
      (if (ratings.foldl (prefStep artists) (⟨[], [], [], [], 0⟩, 0, 0)).2.2 > 0
       then (ratings.foldl (prefStep artists) (⟨[], [], [], [], 0⟩, 0, 0)).2.1
          / ((ratings.foldl (prefStep artists) (⟨[], [], [], [], 0⟩, 0, 0)).2.2 : ℚ)
       else 0) := rfl
  rw [havg, h]
  simp only [zero_add, Nat.zero_add]
  by_cases hz :
      (ratings.filter (fun e => (artists.find? (fun a => a.id == e.1)).isSome)).length = 0
  · simp [hz]
  · have hpos : 0 < (ratings.filter
        (fun e => (artists.find? (fun a => a.id == e.1)).isSome)).length := by omega
    simp [hz, hpos]

theorem getInitialBands_emptyCatalog (shuffle : List Artist → List Artist) :
    ∀ fuel : Nat, getInitialBands shuffle fuel stEmptyCatalog = none := by
  intro fuel
  induction fuel with
  | zero => rfl
  | succ n ih => exact ih

/-- Claim C2: on an empty catalog (failed load) with no ratings, the
recommendation cycle does not return within any number of recursive
calls — getInitialBands clears the already empty recency window and
retries forever, so generateRecommendations never produces the empty
list the spec promises (in the browser this is a stack overflow
escaping the core). -/
theorem generateRecommendations_emptyCatalog_diverges
    (shuffle : List Artist → List Artist) (rands : Nat → Nat) (scoreRand : Nat → ℚ) :
    ∀ fuel : Nat,
      generateRecommendations shuffle rands scoreRand fuel stEmptyCatalog = none := by
  intro fuel
  have h := getInitialBands_emptyCatalog shuffle fuel
  have hempty : stEmptyCatalog.userRatings.isEmpty = true := rfl
  simp only [generateRecommendations, hempty, h, if_true]

/-- Claim C3, counterexample: with an empty catalog (a session state with
no ratings), the cold-start draw does not terminate after clearing the
window once — it returns no result within one retry (fuel 2), nor within
100 retries, because clearing the window cannot make the empty pool
eligible. -/
theorem getInitialBands_one_retry_fails :
    stEmptyCatalog.userRatings = []
    ∧ getInitialBands (fun l => l) 2 stEmptyCatalog = none
    ∧ getInitialBands (fun l => l) 100 stEmptyCatalog = none := by
  exact ⟨rfl, rfl, getInitialBands_emptyCatalog (fun l => l) 100⟩

/-- Claim C3, amended: the cold-start draw terminates in at most one
retry provided that after clearing the recency window at least
N = recommendationCount entities of the cold-start pool remain eligible
(neither rated nor saved for later); clearing the window only restores
full eligibility with respect to the window itself. -/
theorem getInitialBands_terminates_of_pool_large
    (shuffle : List Artist → List Artist) (st : AppState)
    (h : st.recommendationCount ≤
      ((coldEligible { st with recentlyShown := [] }).length : Int)) :
    (getInitialBands shuffle 2 st).isSome = true := by
  have h2 : getInitialBands shuffle 2 st =
      if ((coldEligible st).length : Int) < st.recommendationCount then
        getInitialBands shuffle 1 { st with recentlyShown := [] }
      else
        some (jsSliceTo (shuffle (coldEligible st)) st.recommendationCount,
          trimLast 18 (st.recentlyShown
            ++ (jsSliceTo (shuffle (coldEligible st)) st.recommendationCount).map
              (fun a => a.id))) := rfl
  rw [h2]
  split
  · have h1 : getInitialBands shuffle 1 { st with recentlyShown := [] } =
        if ((coldEligible { st with recentlyShown := [] }).length : Int)
            < ({ st with recentlyShown := [] } : AppState).recommendationCount then
          getInitialBands shuffle 0
            { ({ st with recentlyShown := [] } : AppState) with recentlyShown := [] }
        else
          some (jsSliceTo (shuffle (coldEligible { st with recentlyShown := [] }))
              ({ st with recentlyShown := [] } : AppState).recommendationCount,
            trimLast 18 (({ st with recentlyShown := [] } : AppState).recentlyShown
              ++ (jsSliceTo (shuffle (coldEligible { st with recentlyShown := [] }))
                ({ st with recentlyShown := [] } : AppState).recommendationCount).map
                (fun a => a.id))) := rfl
    rw [h1, if_neg]
    · rfl
    · simp only [AppState.recommendationCount]
      omega
  · rfl

/-- Claim C3, witness: a catalog holding six cold-start pool entities
satisfies the eligibility hypothesis and the draw succeeds within one
retry. -/
theorem getInitialBands_terminates_witness :
    (getInitialBands (fun l => l) 2 stSix).isSome = true :=
  getInitialBands_terminates_of_pool_large (fun l => l) stSix (by decide)

theorem removeRecommendation_shape (rands : Nat → Nat) (scoreRand : Nat → ℚ)
    (st : AppState) (artistId : Nat) :
    ∃ extra : List Artist,
      removeRecommendation rands scoreRand st artistId =
        { st with currentRecommendations :=
            st.currentRecommendations.filter (fun a => a.id != artistId) ++ extra }
      ∧ extra.length ≤ 1 := by
  simp only [removeRecommendation]
  split
  · split
    · split
      · rename_i a heq
        exact ⟨[a], rfl, by simp⟩
      · exact ⟨[], by simp, by simp⟩
    · exact ⟨[], by simp, by simp⟩
  · split
    · split
      · rename_i a heq
        exact ⟨[a.artist], rfl, by simp⟩
      · exact ⟨[], by simp, by simp⟩
    · exact ⟨[], by simp, by simp⟩

/-- Claim C4, counterexample: in a session with one catalog entity,
nothing rated, nothing saved and nothing displayed, removing the
non-displayed identifier 999 is not a no-op — the displayed list grows
from empty to one entity, because removeRecommendation always draws a
replacement after filtering. -/
theorem removeRecommendation_missing_not_noop :
    (999 : Nat) ∉ stOneBand.currentRecommendations.map Artist.id
    ∧ (999 : Nat) ∉ stOneBand.toListenList.map ToListenItem.id
    ∧ (removeRecommendation (fun _ => 0) (fun _ => 0) stOneBand 999).currentRecommendations
        = [beatles]
    ∧ stOneBand.currentRecommendations = [] :=
  ⟨by decide, by decide, rfl, rfl⟩

/-- Claim C4, amended: removing a saved-for-later entry whose identifier
is not in the saved set is a no-op on the whole state; removing a
recommendation whose identifier is not among the displayed
recommendations leaves rating history, saved set, catalog and recency
window unchanged, and leaves the displayed list unchanged except that
the usual replacement draw may append one entity to it. -/
theorem remove_missing_behavior (st : AppState) (artistId : Nat) (rands : Nat → Nat)
    (scoreRand : Nat → ℚ)
    (hs : artistId ∉ st.toListenList.map ToListenItem.id)
    (hr : artistId ∉ st.currentRecommendations.map Artist.id) :
    removeFromListenList st artistId = st
    ∧ (removeRecommendation rands scoreRand st artistId).userRatings = st.userRatings
    ∧ (removeRecommendation rands scoreRand st artistId).toListenList = st.toListenList
    ∧ (removeRecommendation rands scoreRand st artistId).artists = st.artists
    ∧ (removeRecommendation rands scoreRand st artistId).recentlyShown = st.recentlyShown
    ∧ ((removeRecommendation rands scoreRand st artistId).currentRecommendations
          = st.currentRecommendations
        ∨ (removeRecommendation rands scoreRand st artistId).currentRecommendations.dropLast
          = st.currentRecommendations) := by
  have hfil : st.toListenList.filter (fun item => item.id != artistId) = st.toListenList := by
    apply List.filter_eq_self.mpr
    intro item hmem
    simp only [bne_iff_ne, ne_eq]
    intro heq
    exact hs (List.mem_map.mpr ⟨item, hmem, heq⟩)
  have hcur : st.currentRecommendations.filter (fun a => a.id != artistId)
      = st.currentRecommendations := by
    apply List.filter_eq_self.mpr
    intro a hmem
    simp only [bne_iff_ne, ne_eq]
    intro heq
    exact hr (List.mem_map.mpr ⟨a, hmem, heq⟩)
  obtain ⟨extra, hshape, hlen⟩ := removeRecommendation_shape rands scoreRand st artistId
  rw [hcur] at hshape
  refine ⟨?_, by rw [hshape], by rw [hshape], by rw [hshape], by rw [hshape], ?_⟩
  · have h1 : removeFromListenList st artistId =
        { st with toListenList := st.toListenList.filter (fun item => item.id != artistId) } :=
      rfl
    rw [h1, hfil]
  · rw [hshape]
    cases extra with
    | nil => left; simp
    | cons a tail =>
      have htail : tail = [] := by
        cases tail with
        | nil => rfl
        | cons b t => simp at hlen
      subst htail
      right
      simp [List.dropLast_concat]

/-- Claim C4, witness: in a session with a saved entry of identifier 7
and no displayed recommendations, removing identifier 999 from the saved
set is a no-op and removing recommendation 999 only touches the
displayed list by at most one appended replacement. -/
theorem remove_missing_behavior_witness :
    removeFromListenList stMixed 999 = stMixed
    ∧ (removeRecommendation (fun _ => 0) (fun _ => 0) stMixed 999).userRatings
        = stMixed.userRatings
    ∧ (removeRecommendation (fun _ => 0) (fun _ => 0) stMixed 999).toListenList
        = stMixed.toListenList
    ∧ (removeRecommendation (fun _ => 0) (fun _ => 0) stMixed 999).artists
        = stMixed.artists
    ∧ (removeRecommendation (fun _ => 0) (fun _ => 0) stMixed 999).recentlyShown
        = stMixed.recentlyShown
    ∧ ((removeRecommendation (fun _ => 0) (fun _ => 0) stMixed 999).currentRecommendations
          = stMixed.currentRecommendations
        ∨ (removeRecommendation (fun _ => 0) (fun _ => 0) stMixed
            999).currentRecommendations.dropLast
          = stMixed.currentRecommendations) :=
  remove_missing_behavior stMixed 999 (fun _ => 0) (fun _ => 0) (by decide) (by decide)

/-- Claim C6: no identifier that is a key of the rating mapping, and no
saved-for-later identifier, appears in the eligible-candidate set of a
recommendation cycle — neither in the preference-scored path
(eligibleCandidates) nor in the cold-start path (coldEligible). -/
theorem eligible_excludes_rated_and_saved (st : AppState) (a : Artist)
    (h : a ∈ eligibleCandidates st ∨ a ∈ coldEligible st) :
    a.id ∉ st.userRatings.map Prod.fst
    ∧ a.id ∉ st.toListenList.map ToListenItem.id := by
  have hb : isRated st.userRatings a.id = false ∧ inToListen st.toListenList a.id = false := by
    rcases h with h | h
    · have := (List.mem_filter.mp h).2
      simp only [Bool.and_eq_true, Bool.not_eq_true'] at this
      exact ⟨this.1, this.2⟩
    · have := (List.mem_filter.mp h).2
      simp only [Bool.and_eq_true, Bool.not_eq_true'] at this
      exact ⟨this.1.1, this.1.2⟩
  exact ⟨(isRated_eq_false_iff st.userRatings a.id).mp hb.1,
    (inToListen_eq_false_iff st.toListenList a.id).mp hb.2⟩

/-- Claim C6, witness: in a session where identifier 42 is rated and
identifier 7 is saved, the eligible Beatles entity is neither a rating
key nor saved. -/
theorem eligible_excludes_witness :
    beatles.id ∉ stMixed.userRatings.map Prod.fst
    ∧ beatles.id ∉ stMixed.toListenList.map ToListenItem.id :=
  eligible_excludes_rated_and_saved stMixed beatles (Or.inl (by decide))

theorem getInitialBands_window_le (shuffle : List Artist → List Artist) :
    ∀ (fuel : Nat) (st : AppState) (res : List Artist × List Nat),
      getInitialBands shuffle fuel st = some res → res.2.length ≤ 18 := by
  intro fuel
  induction fuel with
  | zero =>
    intro st res h
    simp [getInitialBands] at h
  | succ n ih =>
    intro st res h
    rw [getInitialBands] at h
    split at h
    · exact ih _ _ h
    · simp only [Option.some.injEq] at h
      rw [← h]
      exact trimLast_length_le _ _

/-- Claim C7: the recency window never exceeds its cap — after a general
selection it holds at most 24 identifiers and is a suffix of the pushed
window (oldest entries evicted first), and whenever a cold-start draw
returns, its window holds at most 18 identifiers. -/
theorem recencyWindow_cap_invariant (N : Int) (rs : List Nat) (rands : Nat → Nat)
    (scored : List Scored) (shuffle : List Artist → List Artist) (fuel : Nat)
    (st : AppState) (res : List Artist × List Nat) :
    (selectRecommendations N rs rands scored).2.length ≤ 24
    ∧ (selectRecommendations N rs rands scored).2
        <:+ pushIds rs (selectRecommendations N rs rands scored).1
    ∧ (getInitialBands shuffle fuel st = some res → res.2.length ≤ 18) := by
  refine ⟨?_, ?_, getInitialBands_window_le shuffle fuel st res⟩
  · rw [selectRecommendations_snd_eq]
    exact trimLast_length_le _ _
  · rw [selectRecommendations_snd_eq]
    exact trimLast_suffix _ _

/-- Claim C7, witness: concrete selection over an empty pool and the
cold-start draw on the six-entity catalog. -/
theorem recencyWindow_cap_witness :
    (selectRecommendations 6 [10, 20] (fun _ => 0) []).2.length ≤ 24
    ∧ (selectRecommendations 6 [10, 20] (fun _ => 0) []).2
        <:+ pushIds [10, 20] (selectRecommendations 6 [10, 20] (fun _ => 0) []).1
    ∧ resSix.2.length ≤ 18 := by
  obtain ⟨h1, h2, h3⟩ :=
    recencyWindow_cap_invariant 6 [10, 20] (fun _ => 0) [] (fun l => l) 1 stSix resSix
  exact ⟨h1, h2, h3 rfl⟩

/-- Claim C8: the score is 3 times the summed genre weights plus 2 times
the summed theme weights plus 2 times the summed style weights plus the
era weight plus the fresh draw from [0,10); absent tags contribute 0
through the `|| 0` lookup, and on the worked example (ratings A ↦ 5,
B ↦ 3, A and C tagged "rock") the genre component of scoring C is 15. -/
theorem calculateArtistScore_spec (artist : Artist) (p : Preferences) (r : ℚ)
    (_h0 : 0 ≤ r) (_h10 : r < 10) :
    calculateArtistScore artist p r =
      3 * tagTotal p.genres artist.genres + 2 * tagTotal p.themes artist.themes
        + 2 * tagTotal p.styles artist.styles + 1 * lookupTag p.eras artist.era + r
    ∧ lookupTag exPrefs.genres "rock" = 5
    ∧ lookupTag exPrefs.genres "pop" = 3
    ∧ 3 * tagTotal exPrefs.genres artistC.genres = 15 := by
  refine ⟨?_, by decide, by decide, by decide⟩
  simp only [calculateArtistScore]
  rw [foldl_score_component, foldl_score_component, foldl_score_component]
  simp only [tagTotal]
  ring

/-- Claim C8, witness: the decomposition instantiated at the worked
example, scoring C against the profile of ratings A ↦ 5, B ↦ 3 with
draw 1. -/
theorem calculateArtistScore_spec_witness :
    calculateArtistScore artistC exPrefs 1 =
      3 * tagTotal exPrefs.genres artistC.genres + 2 * tagTotal exPrefs.themes artistC.themes
        + 2 * tagTotal exPrefs.styles artistC.styles + 1 * lookupTag exPrefs.eras artistC.era
        + 1
    ∧ lookupTag exPrefs.genres "rock" = 5
    ∧ lookupTag exPrefs.genres "pop" = 3
    ∧ 3 * tagTotal exPrefs.genres artistC.genres = 15 :=
  calculateArtistScore_spec artistC exPrefs 1 (by norm_num) (by norm_num)

theorem drawRandom_one (rands : Nat → Nat) (i : Nat) (rem : List Scored)
    (h : rem ≠ []) : ∃ a, a ∈ rem ∧ drawRandom rands i 1 rem = [a] := by
  rw [drawRandom]
  have hlen : ¬ rem.length = 0 := by
    simpa [List.length_eq_zero] using h
  rw [if_neg hlen]
  have hidx : rands i % rem.length < rem.length :=
    Nat.mod_lt _ (Nat.pos_of_ne_zero hlen)
  cases hget : rem.get? (rands i % rem.length) with
  | none => exact absurd (List.get?_eq_none.mp hget) (by omega)
  | some a => exact ⟨a, List.get?_mem hget, rfl⟩

/-- Claim C9, counterexample: a sorted pool of ten candidates with
pairwise distinct scores but a shared identifier defeats the claim — the
selection returns six entities but their identifiers are all equal, so
the distinct-score hypothesis alone does not give distinct identifiers. -/
theorem selectRecommendations_dup_id_not_nodup :
    dupPool.length = 10
    ∧ (dupPool.map Scored.score).Nodup
    ∧ ((selectRecommendations 6 [] (fun _ => 0) dupPool).1).length = 6
    ∧ ¬ (((selectRecommendations 6 [] (fun _ => 0) dupPool).1.map
        (fun s => s.artist.id)).Nodup) :=
  ⟨by decide, by decide, by decide, by decide⟩

/-- Claim C9, amended: over a pool of at least ten candidates with
pairwise distinct identifiers, selection with N = 6 takes
top = ceil(0.7·6) = 5 entities from the head of the filtered pool and
one more by a random draw from the remaining pool, returning exactly six
entities with no duplicate identifiers. -/
theorem selectRecommendations_top_random_split (rs : List Nat) (rands : Nat → Nat)
    (pool : List Scored)
    (hlen : 10 ≤ pool.length)
    (hids : (pool.map (fun s => s.artist.id)).Nodup) :
    ((selectRecommendations 6 rs rands pool).1).length = 6
    ∧ (((selectRecommendations 6 rs rands pool).1).map (fun s => s.artist.id)).Nodup
    ∧ ((selectRecommendations 6 rs rands pool).1).take 5
        = (availablePool rs 6 pool).take 5
    ∧ (selectRecommendations 6 rs rands pool).1
        = jsSliceTo (availablePool rs 6 pool) 5
          ++ drawRandom rands 0 1 (jsSliceFrom (availablePool rs 6 pool) 5) := by
  have h6 : (6 : Int) ≤ (pool.length : Int) := by exact_mod_cast le_trans (by norm_num) hlen
  have hmin : min (6 : Int) (pool.length : Int) = 6 := min_eq_left h6
  have hceil : ratCeil (((6 : Int) : ℚ) * (7 / 10)) = 5 := by decide
  have hkey : (selectRecommendations 6 rs rands pool).1 =
      jsSliceTo (availablePool rs 6 pool) 5
        ++ drawRandom rands 0 1 (jsSliceFrom (availablePool rs 6 pool) 5) := by
    rw [selectRecommendations_fst_eq, hmin, hceil]
    norm_num
  have havail : 6 ≤ (availablePool rs 6 pool).length := by
    rw [availablePool_eq]
    split
    · rename_i hge
      exact_mod_cast hge
    · omega
  have hstart : jsStartIdx (availablePool rs 6 pool).length 5 = 5 := by
    rw [jsStartIdx, if_neg (by norm_num)]
    have h5 : (5 : Int).toNat = 5 := rfl
    rw [h5]
    omega
  have htake5 : jsSliceTo (availablePool rs 6 pool) 5 = (availablePool rs 6 pool).take 5 := by
    rw [jsSliceTo, hstart]
  have hdrop5 : jsSliceFrom (availablePool rs 6 pool) 5 = (availablePool rs 6 pool).drop 5 := by
    rw [jsSliceFrom, hstart]
  have hlen5 : ((availablePool rs 6 pool).take 5).length = 5 := by
    rw [List.length_take]
    omega
  have hdropne : (availablePool rs 6 pool).drop 5 ≠ [] := by
    intro hcon
    have := congrArg List.length hcon
    simp only [List.length_drop, List.length_nil] at this
    omega
  obtain ⟨a, hamem, hdraw⟩ := drawRandom_one rands 0 ((availablePool rs 6 pool).drop 5) hdropne
  rw [hdrop5] at hkey
  rw [hdraw] at hkey
  have hANodup : ((availablePool rs 6 pool).map (fun s => s.artist.id)).Nodup :=
    availablePool_ids_nodup rs 6 pool hids
  have hsplitmap :
      ((availablePool rs 6 pool).take 5).map (fun s => s.artist.id)
        ++ ((availablePool rs 6 pool).drop 5).map (fun s => s.artist.id)
      = (availablePool rs 6 pool).map (fun s => s.artist.id) := by
    rw [← List.map_append, List.take_append_drop]
  have hAN2 : (((availablePool rs 6 pool).take 5).map (fun s => s.artist.id)
      ++ ((availablePool rs 6 pool).drop 5).map (fun s => s.artist.id)).Nodup := by
    rw [hsplitmap]
    exact hANodup
  rw [List.nodup_append] at hAN2
  refine ⟨?_, ?_, ?_, by rw [hkey, hdrop5, hdraw]⟩
  · rw [hkey, htake5, List.length_append, hlen5]
    rfl
  · rw [hkey, htake5, List.map_append, List.nodup_append]
    refine ⟨hAN2.1, by simp, ?_⟩
    intro x hx
    simp only [List.map_cons, List.map_nil, List.mem_singleton]
    intro hxa
    have hain : a.artist.id ∈ ((availablePool rs 6 pool).drop 5).map (fun s => s.artist.id) :=
      List.mem_map.mpr ⟨a, hamem, rfl⟩
    exact hAN2.2.2 hx (hxa ▸ hain)
  · rw [hkey, htake5]
    rw [List.take_append_eq_append_take, hlen5, Nat.sub_self, List.take_zero,
      List.append_nil, List.take_take, Nat.min_self]

/-- Claim C9, witness: the ten-candidate pool with identifiers 1..10 and
scores 10..1 satisfies the hypotheses, and the selection returns six
entities with distinct identifiers in the described top/random shape. -/
theorem selectRecommendations_top_random_split_witness :
    ((selectRecommendations 6 [] (fun _ => 0) tenPool).1).length = 6
    ∧ (((selectRecommendations 6 [] (fun _ => 0) tenPool).1).map
        (fun s => s.artist.id)).Nodup
    ∧ ((selectRecommendations 6 [] (fun _ => 0) tenPool).1).take 5
        = (availablePool [] 6 tenPool).take 5
    ∧ (selectRecommendations 6 [] (fun _ => 0) tenPool).1
        = jsSliceTo (availablePool [] 6 tenPool) 5
          ++ drawRandom (fun _ => 0) 0 1 (jsSliceFrom (availablePool [] 6 tenPool) 5) :=
  selectRecommendations_top_random_split [] (fun _ => 0) tenPool (by decide) (by decide)
